import Mathlib

/-!
# Verification of the spotter-router-service fuel-stop planner

Shallow embedding of `src/route_planner/services/routing.py` (class
`OptimalFuelRouter`) and of the route-fetching/caching logic, with proofs
of the specified properties.

Modelling conventions:
* Python floats and `Decimal` values are modelled as exact rationals (`ℚ`).
* The GEOS `LineString` `self.route_line` is modelled by its planar length
  `L` in degree units (`route_line.length`).  For a simple
  (non-self-intersecting) linestring, `project(interpolate(d)) / length`
  equals `d` clamped to `[0, L]`, divided by `L`; this composite is the
  only way the planner uses points, so a point produced by
  `interpolate(d)` is represented by the number `d` itself
  (see `line_locate_fraction`).
* A station's `station_fraction` annotation (PostGIS `ST_LineLocatePoint`,
  a value in `[0,1]`) is carried as a field of the station record; the
  database query `_find_stations_along_route` is modelled by passing the
  resulting price-ascending list as a parameter.
* `str(station)` (the label stored in `FuelStop.station`) is abstracted to
  the station's `name` field: the exact formatting of the GEOS point and
  of the Decimal price is irrelevant to every property proved here.
-/

/-! ## Constants (routing.py lines 17-26) -/

def RANGE_IN_MILES : ℚ := 500

def MILES_PER_GALLON : ℚ := 10

def SEARCH_RADIUS_IN_MILES : ℚ := 10

def SAFETY_MARGIN : ℚ := 9 / 10

def MAX_TRAVERSIBLE_RANGE : ℚ := RANGE_IN_MILES * SAFETY_MARGIN

def CACHE_TIMEOUT : ℕ := 3600

def METERS_PER_MILE : ℚ := 160934 / 100

def MILES_PER_DEGREE : ℚ := 69

/-! ## Data model -/

/-- A fuel station row (`route_planner/models.py`) together with the
`station_fraction` annotation added by `_find_stations_along_route`
(`ST_LineLocatePoint`, the fraction of the route line nearest the
station's location).  The GEOS point `location` is represented by its
`lat` (`location.y`) and `lng` (`location.x`) components. -/
structure FuelStation where
  name : String
  address : String
  city : String
  state : String
  price_per_gallon_in_usd : ℚ
  lat : ℚ
  lng : ℚ
  station_fraction : ℚ
deriving DecidableEq, Repr

/-- Models `str(station)`; the point/price formatting is abstracted to the
name (no proved property inspects the label). -/
def station_str (s : FuelStation) : String := s.name

/-- The `FuelStop` dataclass (routing.py lines 44-50). -/
structure FuelStop where
  station : String
  distance_from_start : ℚ
  coordinates : ℚ × ℚ
  gallons_to_fill : ℚ
  cost : ℚ
deriving DecidableEq, Repr

/-- Outcome of `find_optimal_fuel_stops`: normal return of
`(optimal_stops, total_refill_cost)`, or the
`ValidationError("Not enough fuel stations found along the route")`
raised when `_find_next_best_fuel_station` returns `None`.  `outOfFuel`
is an artifact of the fuel-indexed recursion used to embed the `while`
loop; it is proved unreachable for the fuel budget actually used. -/
inductive PlanResult where
  | ok (stops : List FuelStop) (total_refill_cost : ℚ)
  | insufficientStations
  | outOfFuel
deriving DecidableEq, Repr

/-! ## Geometry model and fuel-cost helper -/

/-- `route_line.project(route_line.interpolate(d)) / route_line.length`
for a simple linestring of length `L` (degree units): GEOS `interpolate`
clamps its argument to `[0, L]`, and `project` of an on-line point
returns its arc-length position. -/
def line_locate_fraction (L d : ℚ) : ℚ := min (max d 0) L / L

/-- `OptimalFuelRouter._calculate_fuel_cost` (routing.py lines 61-64):
`Decimal(str(gallons)) * price_per_gallon`, exact in the rational
model. -/
def calculate_fuel_cost (gallons : ℚ) (price_per_gallon : ℚ) : ℚ :=
  gallons * price_per_gallon

/-! ## `_find_next_best_fuel_station` (routing.py lines 156-205)

The Python method receives `current_point : Point`; every such point is
`route_line.interpolate(d)` for a degree-distance `d` (`interpolate(0)`
initially, `interpolate(distance_from_start / MILES_PER_DEGREE)`
afterwards), so the embedding receives that `d` (`current_point_d`). -/

/-- The reachability test of the `for` loop in
`_find_next_best_fuel_station` (routing.py line 176):
`current_fraction < station.station_fraction <= target_fraction`. -/
def in_reach_window (current_fraction target_fraction : ℚ) (s : FuelStation) : Bool :=
  decide (current_fraction < s.station_fraction) &&
  decide (s.station_fraction ≤ target_fraction)

lemma in_reach_window_iff (current_fraction target_fraction : ℚ) (s : FuelStation) :
    in_reach_window current_fraction target_fraction s = true ↔
      (current_fraction < s.station_fraction ∧ s.station_fraction ≤ target_fraction) := by
  simp [in_reach_window]

def find_next_best_fuel_station (L total_distance : ℚ)
    (current_point_d distance_covered remaining_distance : ℚ)
    (stations_along_route : List FuelStation) :
    Option (FuelStop × ℚ) :=
  let current_fraction := line_locate_fraction L current_point_d
  let target_distance := distance_covered + MAX_TRAVERSIBLE_RANGE
  let target_fraction := line_locate_fraction L (target_distance / MILES_PER_DEGREE)
  match stations_along_route.find? (in_reach_window current_fraction target_fraction) with
  | none => none
  | some next_best_station =>
    let distance_from_start := next_best_station.station_fraction * L * MILES_PER_DEGREE
    let nearby_point_in_route := distance_from_start / MILES_PER_DEGREE
    let remaining_distance_from_station := total_distance - distance_from_start
    let remaining_fuel_at_station :=
      (RANGE_IN_MILES - (remaining_distance - remaining_distance_from_station)) / MILES_PER_GALLON
    let gallons_to_fill :=
      if remaining_distance_from_station < RANGE_IN_MILES then
        remaining_distance_from_station / MILES_PER_GALLON - remaining_fuel_at_station
      else
        RANGE_IN_MILES / MILES_PER_GALLON - remaining_fuel_at_station
    let cost := calculate_fuel_cost gallons_to_fill next_best_station.price_per_gallon_in_usd
    some
      (⟨station_str next_best_station, distance_from_start,
        (next_best_station.lat, next_best_station.lng), gallons_to_fill, cost⟩,
       nearby_point_in_route)

/-! ## `find_optimal_fuel_stops` (routing.py lines 207-237)

The `while` loop is embedded as a fuel-indexed recursion; the top-level
entry supplies fuel `stations.length + 1`, which is proved sufficient
(the loop advances past at least one station per iteration). -/

def find_optimal_fuel_stops_loop (L total_distance : ℚ)
    (stations_along_route : List FuelStation) :
    ℕ → ℚ → ℚ → List FuelStop → ℚ → PlanResult
  | 0, _, _, _, _ => .outOfFuel
  | fuel + 1, current_point_d, distance_covered, optimal_stops, total_refill_cost =>
    if distance_covered < total_distance then
      let remaining_distance := total_distance - distance_covered
      if remaining_distance < MAX_TRAVERSIBLE_RANGE then
        .ok optimal_stops total_refill_cost
      else
        match find_next_best_fuel_station L total_distance current_point_d
            distance_covered remaining_distance stations_along_route with
        | none => .insufficientStations
        | some (next_best_fuel_station, nearby_point_in_route) =>
          find_optimal_fuel_stops_loop L total_distance stations_along_route fuel
            nearby_point_in_route next_best_fuel_station.distance_from_start
            (optimal_stops ++ [next_best_fuel_station])
            (total_refill_cost + next_best_fuel_station.cost)
    else .ok optimal_stops total_refill_cost

/-- `find_optimal_fuel_stops`: starts at `current_point =
route_line.interpolate(0)` (degree-distance `0`), `distance_covered = 0`,
empty stop list and `Decimal("0")` accumulated cost.  (The
`ValidationError("Route not found")` guard for a missing route line is
outside this model: the planner is only invoked with a route present.) -/
def find_optimal_fuel_stops (L total_distance : ℚ)
    (stations_along_route : List FuelStation) : PlanResult :=
  find_optimal_fuel_stops_loop L total_distance stations_along_route
    (stations_along_route.length + 1) 0 0 [] 0

/-! ## A concrete planner run, shared by several witnesses

Route of `1000` miles whose linestring measures `1000/69` degrees; two
corridor stations, price-ascending: `A` at fraction `1/5` (mile 200,
`$3.00`/gal) and `B` at fraction `3/5` (mile 600, `$3.50`/gal). -/

def demo_stations : List FuelStation :=
  [⟨"A", "a st", "ac", "AS", 3, 1, 2, 1/5⟩, ⟨"B", "b st", "bc", "BS", 7/2, 3, 4, 3/5⟩]

def demo_stop_A : FuelStop := ⟨"A", 200, (1, 2), 20, 60⟩

def demo_stops : List FuelStop :=
  [demo_stop_A, ⟨"B", 600, (3, 4), 30, 105⟩]

lemma demo_run :
    find_optimal_fuel_stops (1000 / 69) 1000 demo_stations = .ok demo_stops 165 := by
  norm_num [demo_stations, demo_stops, demo_stop_A, find_optimal_fuel_stops, find_optimal_fuel_stops_loop,
    find_next_best_fuel_station, in_reach_window, line_locate_fraction, calculate_fuel_cost, station_str,
    List.find?, MAX_TRAVERSIBLE_RANGE, RANGE_IN_MILES, SAFETY_MARGIN, MILES_PER_GALLON,
    MILES_PER_DEGREE]

lemma demo_first_step :
    find_next_best_fuel_station (1000 / 69) 1000 0 0 1000 demo_stations =
      some (demo_stop_A, 200 / 69) := by
  norm_num [demo_stations, demo_stop_A, find_next_best_fuel_station, in_reach_window, line_locate_fraction,
    calculate_fuel_cost, station_str, List.find?, MAX_TRAVERSIBLE_RANGE, RANGE_IN_MILES,
    SAFETY_MARGIN, MILES_PER_GALLON, MILES_PER_DEGREE]

/-! ## C3 — short routes -/

/-- C3 (claim as stated is refuted here): a route of total distance
exactly `450` miles — which is `≤` the safe range `MAX_TRAVERSIBLE_RANGE
= 450` — does **not** return an empty stop list with zero cost: the loop
breaks only when the remaining distance is *strictly below* the safe
range, so at exactly `450` miles it still selects a station (here
producing one stop, with a negative fill quantity to boot). -/
theorem c3_counterexample :
    (450 : ℚ) ≤ MAX_TRAVERSIBLE_RANGE ∧
    find_optimal_fuel_stops (450 / 69) 450 [⟨"S", "s st", "sc", "SS", 3, 1, 2, 1/2⟩] =
      .ok [⟨"S", 225, (1, 2), -5, -15⟩] (-15) ∧
    PlanResult.ok [⟨"S", 225, ((1 : ℚ), (2 : ℚ)), -5, -15⟩] (-15) ≠ .ok [] 0 := by
  refine ⟨by norm_num [MAX_TRAVERSIBLE_RANGE, RANGE_IN_MILES, SAFETY_MARGIN], ?_, by simp⟩
  norm_num [find_optimal_fuel_stops, find_optimal_fuel_stops_loop,
    find_next_best_fuel_station, in_reach_window, line_locate_fraction, calculate_fuel_cost, station_str,
    List.find?, MAX_TRAVERSIBLE_RANGE, RANGE_IN_MILES, SAFETY_MARGIN, MILES_PER_GALLON,
    MILES_PER_DEGREE]

/-- C3 (amended): for every route whose `total_distance` is **strictly
less than** the safe range of 450 miles, `find_optimal_fuel_stops`
returns an empty stop list and a total cost of exactly zero, without
selecting any station. -/
theorem c3_short_route_no_stops (L total_distance : ℚ)
    (stations_along_route : List FuelStation)
    (h : total_distance < MAX_TRAVERSIBLE_RANGE) :
    find_optimal_fuel_stops L total_distance stations_along_route = .ok [] 0 := by
  have h0 : total_distance - 0 < MAX_TRAVERSIBLE_RANGE := by simpa using h
  simp only [find_optimal_fuel_stops, find_optimal_fuel_stops_loop]
  split
  · simp [h0]
  · rfl

/-- Witness for `c3_short_route_no_stops` at a concrete short route. -/
theorem c3_witness :
    (100 : ℚ) < MAX_TRAVERSIBLE_RANGE ∧
    find_optimal_fuel_stops 2 100 demo_stations = .ok [] 0 :=
  ⟨by norm_num [MAX_TRAVERSIBLE_RANGE, RANGE_IN_MILES, SAFETY_MARGIN],
   c3_short_route_no_stops 2 100 demo_stations
     (by norm_num [MAX_TRAVERSIBLE_RANGE, RANGE_IN_MILES, SAFETY_MARGIN])⟩

/-! ## C10 — the returned total is the sum of the stop costs -/

/-- Loop invariant: the accumulated `total_refill_cost` stays equal to
the sum of the costs of the accumulated stops. -/
lemma find_optimal_fuel_stops_loop_cost_sum (L total_distance : ℚ)
    (stations_along_route : List FuelStation) :
    ∀ fuel current_point_d distance_covered stops acc stops' acc',
      find_optimal_fuel_stops_loop L total_distance stations_along_route fuel
        current_point_d distance_covered stops acc = .ok stops' acc' →
      acc = (stops.map FuelStop.cost).sum →
      acc' = (stops'.map FuelStop.cost).sum := by
  intro fuel
  induction fuel with
  | zero =>
    intro _ _ _ _ _ _ h _
    simp [find_optimal_fuel_stops_loop] at h
  | succ n ih =>
    intro current_point_d distance_covered stops acc stops' acc' h hacc
    simp only [find_optimal_fuel_stops_loop] at h
    split at h
    · split at h
      · cases h
        exact hacc
      · split at h
        · cases h
        · exact ih _ _ _ _ _ _ h (by simp [hacc])
    · cases h
      exact hacc

/-- C10: the total refill cost returned by `find_optimal_fuel_stops`
equals the sum of the `cost` fields of the stops it returns (in
particular, an empty stop list comes with total cost exactly zero). -/
theorem c10_total_cost_is_sum (L total_distance : ℚ)
    (stations_along_route : List FuelStation) (stops : List FuelStop) (acc : ℚ)
    (h : find_optimal_fuel_stops L total_distance stations_along_route = .ok stops acc) :
    acc = (stops.map FuelStop.cost).sum :=
  find_optimal_fuel_stops_loop_cost_sum L total_distance stations_along_route
    _ _ _ _ _ _ _ h (by simp)

/-- Witness for `c10_total_cost_is_sum` on the concrete two-stop run. -/
theorem c10_witness :
    find_optimal_fuel_stops (1000 / 69) 1000 demo_stations = .ok demo_stops 165 ∧
    (165 : ℚ) = (demo_stops.map FuelStop.cost).sum :=
  ⟨demo_run, c10_total_cost_is_sum (1000 / 69) 1000 demo_stations demo_stops 165 demo_run⟩

/-! ## C1 — the greedy step picks the first (cheapest) station in the window -/

/-- `List.find?` returns the first match: the list splits around the hit,
with every earlier element failing the predicate. -/
lemma find?_split {α : Type} {p : α → Bool} :
    ∀ {l : List α} {a : α}, l.find? p = some a →
      ∃ l1 l2, l = l1 ++ a :: l2 ∧ ∀ x ∈ l1, p x = false := by
  intro l
  induction l with
  | nil => intro a h; cases h
  | cons b t ih =>
    intro a h
    by_cases hb : p b
    · rw [List.find?_cons_of_pos _ hb] at h
      cases h
      exact ⟨[], t, rfl, by simp⟩
    · rw [List.find?_cons_of_neg _ hb] at h
      obtain ⟨l1, l2, hsplit, hfail⟩ := ih h
      refine ⟨b :: l1, l2, by simp [hsplit], ?_⟩
      intro x hx
      rcases List.mem_cons.mp hx with hx | hx
      · subst hx; exact Bool.eq_false_iff.mpr hb
      · exact hfail x hx

/-- C1: when the greedy step returns a stop, the underlying station is the
first candidate, in the given price-ascending order, whose
`station_fraction` lies strictly above the current position's fraction and
at most the target fraction (current position plus the 450-mile safe
range, mapped through the route line); in particular - candidates sorted
ascending by price - it is a cheapest station in that window, and no
candidate outside the window is ever the selected one. -/
theorem c1_selects_first_cheapest_in_window
    (L total_distance current_point_d distance_covered remaining_distance : ℚ)
    (stations_along_route : List FuelStation) (stop : FuelStop) (nearby : ℚ)
    (hsorted : stations_along_route.Pairwise
      (fun a b => a.price_per_gallon_in_usd ≤ b.price_per_gallon_in_usd))
    (h : find_next_best_fuel_station L total_distance current_point_d distance_covered
      remaining_distance stations_along_route = some (stop, nearby)) :
    ∃ s ∈ stations_along_route,
      stop.station = station_str s ∧
      stop.distance_from_start = s.station_fraction * L * MILES_PER_DEGREE ∧
      (line_locate_fraction L current_point_d < s.station_fraction ∧
        s.station_fraction ≤ line_locate_fraction L
          ((distance_covered + MAX_TRAVERSIBLE_RANGE) / MILES_PER_DEGREE)) ∧
      (∃ l1 l2, stations_along_route = l1 ++ s :: l2 ∧
        ∀ x ∈ l1, ¬(line_locate_fraction L current_point_d < x.station_fraction ∧
          x.station_fraction ≤ line_locate_fraction L
            ((distance_covered + MAX_TRAVERSIBLE_RANGE) / MILES_PER_DEGREE))) ∧
      (∀ x ∈ stations_along_route,
        (line_locate_fraction L current_point_d < x.station_fraction ∧
          x.station_fraction ≤ line_locate_fraction L
            ((distance_covered + MAX_TRAVERSIBLE_RANGE) / MILES_PER_DEGREE)) →
        s.price_per_gallon_in_usd ≤ x.price_per_gallon_in_usd) := by
  simp only [find_next_best_fuel_station] at h
  set cf := line_locate_fraction L current_point_d with hcf
  set tf := line_locate_fraction L
    ((distance_covered + MAX_TRAVERSIBLE_RANGE) / MILES_PER_DEGREE) with htf
  cases hf : stations_along_route.find? (in_reach_window cf tf) with
  | none => rw [hf] at h; cases h
  | some s =>
    rw [hf] at h
    cases h
    have hin : in_reach_window cf tf s = true := List.find?_some hf
    have hwin := (in_reach_window_iff cf tf s).mp hin
    obtain ⟨l1, l2, hsplit, hfail⟩ := find?_split hf
    have hmem : s ∈ stations_along_route := List.mem_of_find?_eq_some hf
    refine ⟨s, hmem, rfl, rfl, hwin, ⟨l1, l2, hsplit, ?_⟩, ?_⟩
    · intro x hx hxwin
      have := hfail x hx
      rw [Bool.eq_false_iff] at this
      exact this ((in_reach_window_iff cf tf x).mpr hxwin)
    · intro x hx hxwin
      rw [hsplit] at hx hsorted
      rcases List.mem_append.mp hx with hx1 | hx2
      · have hfx := hfail x hx1
        rw [Bool.eq_false_iff] at hfx
        exact absurd ((in_reach_window_iff cf tf x).mpr hxwin) hfx
      · rcases List.mem_cons.mp hx2 with rfl | hx2
        · exact le_refl _
        · have := (List.pairwise_append.mp hsorted).2.1
          exact (List.pairwise_cons.mp this).1 x hx2

/-- Witness for `c1_selects_first_cheapest_in_window`: the first step of
the concrete two-station run selects station `A`. -/
theorem c1_witness :
    (demo_stations.Pairwise
      (fun a b => a.price_per_gallon_in_usd ≤ b.price_per_gallon_in_usd)) ∧
    (∃ s ∈ demo_stations,
      demo_stop_A.station = station_str s ∧
      demo_stop_A.distance_from_start =
        s.station_fraction * (1000 / 69) * MILES_PER_DEGREE ∧
      (line_locate_fraction (1000 / 69) 0 < s.station_fraction ∧
        s.station_fraction ≤ line_locate_fraction (1000 / 69)
          ((0 + MAX_TRAVERSIBLE_RANGE) / MILES_PER_DEGREE)) ∧
      (∃ l1 l2, demo_stations = l1 ++ s :: l2 ∧
        ∀ x ∈ l1, ¬(line_locate_fraction (1000 / 69) 0 < x.station_fraction ∧
          x.station_fraction ≤ line_locate_fraction (1000 / 69)
            ((0 + MAX_TRAVERSIBLE_RANGE) / MILES_PER_DEGREE))) ∧
      (∀ x ∈ demo_stations,
        (line_locate_fraction (1000 / 69) 0 < x.station_fraction ∧
          x.station_fraction ≤ line_locate_fraction (1000 / 69)
            ((0 + MAX_TRAVERSIBLE_RANGE) / MILES_PER_DEGREE)) →
        s.price_per_gallon_in_usd ≤ x.price_per_gallon_in_usd)) :=
  ⟨by norm_num [demo_stations],
   c1_selects_first_cheapest_in_window (1000 / 69) 1000 0 0 1000 demo_stations
     demo_stop_A (200 / 69) (by norm_num [demo_stations]) demo_first_step⟩

/-! ## C2 — the fill-quantity formula -/

/-- The fill-quantity computation of a successful greedy step, written
with the literal constants `500` (tank range) and `10` (fuel economy). -/
lemma find_next_best_fuel_station_gallons
    (L total_distance current_point_d distance_covered remaining_distance : ℚ)
    (stations_along_route : List FuelStation) (stop : FuelStop) (nearby : ℚ)
    (h : find_next_best_fuel_station L total_distance current_point_d distance_covered
      remaining_distance stations_along_route = some (stop, nearby)) :
    stop.gallons_to_fill =
      if total_distance - stop.distance_from_start < 500 then
        (total_distance - stop.distance_from_start) / 10 -
          (500 - (remaining_distance - (total_distance - stop.distance_from_start))) / 10
      else
        500 / 10 -
          (500 - (remaining_distance - (total_distance - stop.distance_from_start))) / 10 := by
  simp only [find_next_best_fuel_station] at h
  cases hf : stations_along_route.find? (in_reach_window
      (line_locate_fraction L current_point_d)
      (line_locate_fraction L
        ((distance_covered + MAX_TRAVERSIBLE_RANGE) / MILES_PER_DEGREE))) with
  | none => rw [hf] at h; cases h
  | some s =>
    rw [hf] at h
    cases h
    simp only [RANGE_IN_MILES, MILES_PER_GALLON]

/-- C2: every stop produced by the greedy step carries
`gallons_to_fill` computed from
`remaining_fuel_at_station = (500 - (remaining_distance -
remaining_distance_from_station)) / 10` (using the unscaled 500-mile tank
range), with `gallons_to_fill = remaining_distance_from_station / 10 -
remaining_fuel_at_station` when the station is closer than 500 miles to
the destination and `gallons_to_fill = 500 / 10 -
remaining_fuel_at_station` otherwise. -/
theorem c2_gallons_formula
    (L total_distance current_point_d distance_covered remaining_distance : ℚ)
    (stations_along_route : List FuelStation) (stop : FuelStop) (nearby : ℚ)
    (h : find_next_best_fuel_station L total_distance current_point_d distance_covered
      remaining_distance stations_along_route = some (stop, nearby)) :
    stop.gallons_to_fill =
      if total_distance - stop.distance_from_start < 500 then
        (total_distance - stop.distance_from_start) / 10 -
          (500 - (remaining_distance - (total_distance - stop.distance_from_start))) / 10
      else
        500 / 10 -
          (500 - (remaining_distance - (total_distance - stop.distance_from_start))) / 10 :=
  find_next_best_fuel_station_gallons L total_distance current_point_d distance_covered
    remaining_distance stations_along_route stop nearby h

/-- Witness for `c2_gallons_formula` on the first step of the concrete
run: station `A` sits 800 miles from the destination, so the top-off
branch applies and `gallons_to_fill = 500/10 - (500 - (1000 - 800))/10 =
20`. -/
theorem c2_witness :
    demo_stop_A.gallons_to_fill =
      if (1000 : ℚ) - demo_stop_A.distance_from_start < 500 then
        ((1000 : ℚ) - demo_stop_A.distance_from_start) / 10 -
          (500 - (1000 - (1000 - demo_stop_A.distance_from_start))) / 10
      else
        500 / 10 - (500 - (1000 - (1000 - demo_stop_A.distance_from_start))) / 10 :=
  c2_gallons_formula (1000 / 69) 1000 0 0 1000 demo_stations
    demo_stop_A (200 / 69) demo_first_step

/-! ## The greedy-step specification used by the loop invariants

Geometric hypotheses used throughout: the route line has positive length
(`0 < L`) and every candidate's `ST_LineLocatePoint` fraction lies in
`[0, 1]`. -/

/-- Inversion of a successful greedy step: the selected station, with the
computed fields. -/
lemma find_next_best_fuel_station_inv
    (L total_distance current_point_d distance_covered remaining_distance : ℚ)
    (stations_along_route : List FuelStation) (stop : FuelStop) (nearby : ℚ)
    (h : find_next_best_fuel_station L total_distance current_point_d distance_covered
      remaining_distance stations_along_route = some (stop, nearby)) :
    ∃ s, stations_along_route.find?
        (in_reach_window (line_locate_fraction L current_point_d)
          (line_locate_fraction L
            ((distance_covered + MAX_TRAVERSIBLE_RANGE) / MILES_PER_DEGREE))) = some s ∧
      stop.distance_from_start = s.station_fraction * L * MILES_PER_DEGREE ∧
      nearby = s.station_fraction * L * MILES_PER_DEGREE / MILES_PER_DEGREE ∧
      stop.cost = stop.gallons_to_fill * s.price_per_gallon_in_usd := by
  simp only [find_next_best_fuel_station] at h
  cases hf : stations_along_route.find? (in_reach_window
      (line_locate_fraction L current_point_d)
      (line_locate_fraction L
        ((distance_covered + MAX_TRAVERSIBLE_RANGE) / MILES_PER_DEGREE))) with
  | none => rw [hf] at h; cases h
  | some s =>
    rw [hf] at h
    cases h
    exact ⟨s, rfl, rfl, rfl, rfl⟩

/-- The clamp evaluates to the identity inside `[0, L]`. -/
lemma line_locate_fraction_of_mem (L d : ℚ) (h0 : 0 ≤ d) (hd : d ≤ L) :
    line_locate_fraction L d = d / L := by
  rw [line_locate_fraction, max_eq_left h0, min_eq_left hd]

/-- Everything the loop needs to know about one successful greedy step,
assuming the loop's own state invariants. -/
lemma find_next_best_fuel_station_spec
    (L total_distance : ℚ) (stations_along_route : List FuelStation)
    (hL : 0 < L)
    (hfr : ∀ s ∈ stations_along_route, 0 ≤ s.station_fraction ∧ s.station_fraction ≤ 1)
    (current_point_d distance_covered : ℚ)
    (hcp : current_point_d = distance_covered / MILES_PER_DEGREE)
    (hdc0 : 0 ≤ distance_covered)
    (hdcL : distance_covered ≤ MILES_PER_DEGREE * L)
    (hrem : MAX_TRAVERSIBLE_RANGE ≤ total_distance - distance_covered)
    (stop : FuelStop) (nearby : ℚ)
    (h : find_next_best_fuel_station L total_distance current_point_d distance_covered
      (total_distance - distance_covered) stations_along_route = some (stop, nearby)) :
    distance_covered < stop.distance_from_start ∧
    stop.distance_from_start ≤ total_distance ∧
    0 ≤ stop.distance_from_start ∧
    stop.distance_from_start ≤ MILES_PER_DEGREE * L ∧
    nearby = stop.distance_from_start / MILES_PER_DEGREE ∧
    (∃ s ∈ stations_along_route,
      stop.cost = stop.gallons_to_fill * s.price_per_gallon_in_usd) ∧
    -5 ≤ stop.gallons_to_fill := by
  obtain ⟨s, hf, hdfs, hnear, hcost⟩ := find_next_best_fuel_station_inv _ _ _ _ _ _ _ _ h
  have hmem : s ∈ stations_along_route := List.mem_of_find?_eq_some hf
  obtain ⟨hs0, hs1⟩ := hfr s hmem
  have hwin := (in_reach_window_iff _ _ s).mp (List.find?_some hf)
  have h69 : (0 : ℚ) < 69 := by norm_num
  have hM : MILES_PER_DEGREE = (69 : ℚ) := rfl
  -- current fraction is the true fraction of `distance_covered`
  have hcd0 : 0 ≤ distance_covered / (69 : ℚ) := by positivity
  have hcdL : distance_covered / (69 : ℚ) ≤ L := by
    rw [div_le_iff h69]
    calc distance_covered ≤ MILES_PER_DEGREE * L := hdcL
    _ = L * 69 := by rw [hM]; ring
  have hcf : line_locate_fraction L current_point_d = distance_covered / 69 / L := by
    rw [hcp, hM, line_locate_fraction_of_mem L _ hcd0 hcdL]
  -- lower bound: the station is strictly beyond the current position
  have hlow : distance_covered < s.station_fraction * L * 69 := by
    have h1 : distance_covered / 69 / L < s.station_fraction := by
      rw [← hcf]; exact hwin.1
    have h2 : distance_covered / 69 < s.station_fraction * L := (div_lt_iff hL).mp h1
    have h3 : distance_covered < s.station_fraction * L * 69 := by
      have := (div_lt_iff h69).mp h2
      linarith
    exact h3
  -- upper bound: the station is within the current target distance
  have ht0 : 0 ≤ (distance_covered + MAX_TRAVERSIBLE_RANGE) / 69 := by
    have : (0 : ℚ) ≤ MAX_TRAVERSIBLE_RANGE := by
      norm_num [MAX_TRAVERSIBLE_RANGE, RANGE_IN_MILES, SAFETY_MARGIN]
    positivity
  have hhigh : s.station_fraction * L * 69 ≤ distance_covered + MAX_TRAVERSIBLE_RANGE := by
    have htf : line_locate_fraction L ((distance_covered + MAX_TRAVERSIBLE_RANGE) / MILES_PER_DEGREE)
        = min ((distance_covered + MAX_TRAVERSIBLE_RANGE) / 69) L / L := by
      rw [hM, line_locate_fraction, max_eq_left ht0]
    have h1 : s.station_fraction ≤ min ((distance_covered + MAX_TRAVERSIBLE_RANGE) / 69) L / L := by
      rw [← htf]; exact hwin.2
    have h2 : s.station_fraction * L ≤ min ((distance_covered + MAX_TRAVERSIBLE_RANGE) / 69) L :=
      (le_div_iff hL).mp h1
    have h3 : s.station_fraction * L ≤ (distance_covered + MAX_TRAVERSIBLE_RANGE) / 69 :=
      le_trans h2 (min_le_left _ _)
    have h4 := (le_div_iff h69).mp h3
    linarith
  have hdfs0 : 0 ≤ s.station_fraction * L * 69 := by positivity
  have hdfsL : s.station_fraction * L * 69 ≤ MILES_PER_DEGREE * L := by
    rw [hM]
    nlinarith [hs1, hL.le]
  have hMval : MAX_TRAVERSIBLE_RANGE = (450 : ℚ) := by
    norm_num [MAX_TRAVERSIBLE_RANGE, RANGE_IN_MILES, SAFETY_MARGIN]
  constructor
  · rw [hdfs, hM]; exact hlow
  constructor
  · rw [hdfs, hM]
    have : distance_covered + MAX_TRAVERSIBLE_RANGE ≤ total_distance := by linarith
    linarith
  constructor
  · rw [hdfs, hM]; exact hdfs0
  constructor
  · rw [hdfs, hM]; exact hdfsL
  constructor
  · rw [hnear, hdfs]
  constructor
  · exact ⟨s, hmem, hcost⟩
  -- the fill-quantity lower bound
  · have hg : stop.gallons_to_fill =
        if total_distance - stop.distance_from_start < RANGE_IN_MILES then
          (total_distance - stop.distance_from_start) / MILES_PER_GALLON -
            (RANGE_IN_MILES - ((total_distance - distance_covered) -
              (total_distance - stop.distance_from_start))) / MILES_PER_GALLON
        else
          RANGE_IN_MILES / MILES_PER_GALLON -
            (RANGE_IN_MILES - ((total_distance - distance_covered) -
              (total_distance - stop.distance_from_start))) / MILES_PER_GALLON := by
      have h2 := find_next_best_fuel_station_gallons _ _ _ _ _ _ _ _ h
      rw [h2]
      norm_num [RANGE_IN_MILES, MILES_PER_GALLON]
    rw [hg]
    have hdfs69 : distance_covered < stop.distance_from_start := by rw [hdfs, hM]; exact hlow
    split
    · rw [hMval] at hrem
      norm_num [RANGE_IN_MILES, MILES_PER_GALLON]
      linarith
    · norm_num [RANGE_IN_MILES, MILES_PER_GALLON]
      linarith

/-- Membership in `getLast?`. -/
lemma mem_of_getLast_opt {α : Type} {l : List α} {x : α} (h : x ∈ l.getLast?) : x ∈ l := by
  obtain ⟨hne, rfl⟩ := List.mem_getLast?_eq_getLast h
  exact List.getLast_mem hne

/-- The loop invariant: along every run ending in a normal return, the
accumulated stops are strictly ordered by `distance_from_start`, stay
within the route's total distance, and each carries
`cost = gallons_to_fill * price` for its station with
`gallons_to_fill ≥ -5`. -/
lemma find_optimal_fuel_stops_loop_ok_inv
    (L total_distance : ℚ) (stations_along_route : List FuelStation)
    (hL : 0 < L)
    (hfr : ∀ s ∈ stations_along_route, 0 ≤ s.station_fraction ∧ s.station_fraction ≤ 1) :
    ∀ fuel current_point_d distance_covered stops acc stops' acc',
      current_point_d = distance_covered / MILES_PER_DEGREE →
      0 ≤ distance_covered →
      distance_covered ≤ MILES_PER_DEGREE * L →
      (stops.map FuelStop.distance_from_start).Chain' (· < ·) →
      (∀ st ∈ stops, st.distance_from_start ≤ distance_covered) →
      (∀ st ∈ stops, st.distance_from_start ≤ total_distance) →
      (∀ st ∈ stops,
        (∃ s ∈ stations_along_route,
          st.cost = st.gallons_to_fill * s.price_per_gallon_in_usd) ∧
        -5 ≤ st.gallons_to_fill) →
      find_optimal_fuel_stops_loop L total_distance stations_along_route fuel
        current_point_d distance_covered stops acc = .ok stops' acc' →
      (stops'.map FuelStop.distance_from_start).Chain' (· < ·) ∧
      (∀ st ∈ stops', st.distance_from_start ≤ total_distance) ∧
      (∀ st ∈ stops',
        (∃ s ∈ stations_along_route,
          st.cost = st.gallons_to_fill * s.price_per_gallon_in_usd) ∧
        -5 ≤ st.gallons_to_fill) := by
  intro fuel
  induction fuel with
  | zero =>
    intro _ _ _ _ _ _ _ _ _ _ _ _ _ h
    simp [find_optimal_fuel_stops_loop] at h
  | succ n ih =>
    intro current_point_d distance_covered stops acc stops' acc'
      hcp hdc0 hdcL hchain hle htot hcg h
    simp only [find_optimal_fuel_stops_loop] at h
    split at h
    · rename_i hdlt
      split at h
      · cases h
        exact ⟨hchain, htot, hcg⟩
      · rename_i hrem
        split at h
        · cases h
        · rename_i stop nearby heq
          have hspec := find_next_best_fuel_station_spec L total_distance
            stations_along_route hL hfr current_point_d distance_covered hcp hdc0 hdcL
            (le_of_not_lt hrem) stop nearby heq
          obtain ⟨hlow, htotal, hdfs0, hdfsL, hnear, hcost, hgal⟩ := hspec
          refine ih nearby stop.distance_from_start (stops ++ [stop])
            (acc + stop.cost) stops' acc' hnear hdfs0 hdfsL ?_ ?_ ?_ ?_ h
          · rw [List.map_append, List.chain'_append]
            refine ⟨hchain, by simp, ?_⟩
            intro x hx y hy
            simp only [List.map_cons, List.map_nil, List.head?_cons, Option.mem_def,
              Option.some.injEq] at hy
            subst hy
            have hx' : x ∈ stops.map FuelStop.distance_from_start := mem_of_getLast_opt hx
            obtain ⟨st, hst, rfl⟩ := List.mem_map.mp hx'
            exact lt_of_le_of_lt (hle st hst) hlow
          · intro st hst
            rcases List.mem_append.mp hst with hst | hst
            · exact le_trans (hle st hst) hlow.le
            · rw [List.mem_singleton.mp hst]
          · intro st hst
            rcases List.mem_append.mp hst with hst | hst
            · exact htot st hst
            · rw [List.mem_singleton.mp hst]; exact htotal
          · intro st hst
            rcases List.mem_append.mp hst with hst | hst
            · exact hcg st hst
            · rw [List.mem_singleton.mp hst]; exact ⟨hcost, hgal⟩
    · cases h
      exact ⟨hchain, htot, hcg⟩

/-! ## Termination: one iteration per candidate -/

/-- If predicate `q` is stronger than `p` and some member of the list
satisfies `p` but not `q`, the `q`-count is strictly below the
`p`-count. -/
lemma countP_lt_of_strict {α : Type} (p q : α → Bool)
    (hmono : ∀ x, q x = true → p x = true) :
    ∀ (l : List α) (a : α), a ∈ l → p a = true → q a = false →
      l.countP q < l.countP p := by
  intro l
  induction l with
  | nil => intro a ha; cases ha
  | cons b t ih =>
    intro a ha hpa hqa
    have hmono' : t.countP q ≤ t.countP p :=
      List.countP_mono_left (fun x _ hq => hmono x hq)
    rcases List.mem_cons.mp ha with rfl | hat
    · rw [List.countP_cons_of_pos p t hpa, List.countP_cons_of_neg q t (by simp [hqa])]
      exact Nat.lt_succ_of_le hmono'
    · have hqt := ih a hat hpa hqa
      by_cases hqb : q b = true
      · rw [List.countP_cons_of_pos p t (hmono b hqb), List.countP_cons_of_pos q t hqb]
        exact Nat.succ_lt_succ hqt
      · rw [List.countP_cons_of_neg q t (by simp [hqb])]
        cases hb : p b with
        | false => rw [List.countP_cons_of_neg p t (by simp [hb])]; exact hqt
        | true => rw [List.countP_cons_of_pos p t hb]; exact Nat.lt_succ_of_lt hqt

/-- With fuel exceeding the number of candidates beyond the current
fraction, the embedded loop never exhausts its budget: each iteration
moves the current fraction up to the selected station's fraction, so it
consumes at least one candidate. -/
lemma find_optimal_fuel_stops_loop_terminates
    (L total_distance : ℚ) (stations_along_route : List FuelStation)
    (hL : 0 < L)
    (hfr : ∀ s ∈ stations_along_route, 0 ≤ s.station_fraction ∧ s.station_fraction ≤ 1) :
    ∀ fuel current_point_d distance_covered stops acc,
      stations_along_route.countP
        (fun s => decide (line_locate_fraction L current_point_d < s.station_fraction)) < fuel →
      find_optimal_fuel_stops_loop L total_distance stations_along_route fuel
        current_point_d distance_covered stops acc ≠ .outOfFuel := by
  intro fuel
  induction fuel with
  | zero =>
    intro _ _ _ _ hcount
    cases hcount
  | succ n ih =>
    intro current_point_d distance_covered stops acc hcount
    simp only [find_optimal_fuel_stops_loop]
    split
    · split
      · simp
      · split
        · simp
        · rename_i hdlt hrem stop nearby heq
          obtain ⟨s, hf, hdfs, hnear, _⟩ :=
            find_next_best_fuel_station_inv _ _ _ _ _ _ _ _ heq
          have hmem : s ∈ stations_along_route := List.mem_of_find?_eq_some hf
          obtain ⟨hs0, hs1⟩ := hfr s hmem
          have hwin := (in_reach_window_iff _ _ s).mp (List.find?_some hf)
          have hM : MILES_PER_DEGREE = (69 : ℚ) := rfl
          have hnear' : nearby = s.station_fraction * L := by
            rw [hnear, hM]
            field_simp
          have hcf : line_locate_fraction L nearby = s.station_fraction := by
            rw [hnear', line_locate_fraction_of_mem L _ (by positivity)
              (by nlinarith [hs1, hL.le])]
            field_simp
          apply ih
          have hstrict : stations_along_route.countP
              (fun x => decide (s.station_fraction < x.station_fraction)) <
              stations_along_route.countP
              (fun x => decide (line_locate_fraction L current_point_d < x.station_fraction)) := by
            refine countP_lt_of_strict _ _ ?_ stations_along_route s hmem ?_ ?_
            · intro x hx
              simp only [decide_eq_true_eq] at hx ⊢
              exact lt_trans hwin.1 hx
            · simp only [decide_eq_true_eq]
              exact hwin.1
            · simp
          rw [hcf]
          exact lt_of_lt_of_le hstrict (Nat.lt_succ_iff.mp hcount)
    · simp

/-! ## C4, C5, C6 — properties of the returned stop list -/

/-- C4 (claim as stated is refuted here): `gallons_to_fill ≥ 0` fails.
On a 460-mile route whose only corridor station sits at mile 100, the
remaining distance at selection time is 460 (≥ the safe range 450 that
triggers a stop) but below the 500-mile tank range used by the fill
formula, so the planner records `gallons_to_fill = (460 - 500)/10 = -4`
and a negative cost of `-12`. -/
theorem c4_counterexample :
    find_optimal_fuel_stops (460 / 69) 460 [⟨"N", "n st", "nc", "NS", 3, 5, 6, 5/23⟩] =
      .ok [⟨"N", 100, (5, 6), -4, -12⟩] (-12) ∧
    FuelStop.gallons_to_fill ⟨"N", 100, ((5 : ℚ), (6 : ℚ)), -4, -12⟩ < 0 := by
  constructor
  · norm_num [find_optimal_fuel_stops, find_optimal_fuel_stops_loop,
      find_next_best_fuel_station, in_reach_window, line_locate_fraction,
      calculate_fuel_cost, station_str, List.find?, MAX_TRAVERSIBLE_RANGE, RANGE_IN_MILES,
      SAFETY_MARGIN, MILES_PER_GALLON, MILES_PER_DEGREE]
  · norm_num

/-- C4 (amended): for every `FuelStop` produced by
`find_optimal_fuel_stops`, `cost` equals `gallons_to_fill` multiplied by
the selected station's price per gallon, computed exactly (decimal, not
binary-float, arithmetic — exact rationals in this model); and
`gallons_to_fill ≥ -5`, where the fill quantity may indeed be negative:
it is `(remaining_distance - 500)/10 < 0` whenever the stop is selected
with the remaining distance between the 450-mile safe range and the
500-mile tank range and the station lies within 500 miles of the
destination. -/
theorem c4_cost_exact_gallons_bounded
    (L total_distance : ℚ) (stations_along_route : List FuelStation)
    (stops : List FuelStop) (acc : ℚ)
    (hL : 0 < L)
    (hfr : ∀ s ∈ stations_along_route, 0 ≤ s.station_fraction ∧ s.station_fraction ≤ 1)
    (h : find_optimal_fuel_stops L total_distance stations_along_route = .ok stops acc) :
    ∀ st ∈ stops,
      (∃ s ∈ stations_along_route,
        st.cost = st.gallons_to_fill * s.price_per_gallon_in_usd) ∧
      -5 ≤ st.gallons_to_fill := by
  have := find_optimal_fuel_stops_loop_ok_inv L total_distance stations_along_route hL hfr
    (stations_along_route.length + 1) 0 0 [] 0 stops acc (by norm_num) (le_refl 0)
    (by simp only [MILES_PER_DEGREE]; positivity) (by simp) (by simp) (by simp) (by simp) h
  exact this.2.2

/-- Witness for `c4_cost_exact_gallons_bounded` on the concrete two-stop
run. -/
theorem c4_witness :
    ((0 : ℚ) < 1000 / 69 ∧
      (∀ s ∈ demo_stations, 0 ≤ s.station_fraction ∧ s.station_fraction ≤ 1)) ∧
    ∀ st ∈ demo_stops,
      (∃ s ∈ demo_stations,
        st.cost = st.gallons_to_fill * s.price_per_gallon_in_usd) ∧
      -5 ≤ st.gallons_to_fill :=
  ⟨⟨by norm_num, by norm_num [demo_stations]⟩,
   c4_cost_exact_gallons_bounded (1000 / 69) 1000 demo_stations demo_stops 165
     (by norm_num) (by norm_num [demo_stations]) demo_run⟩

/-- C5: across the stop sequence returned by `find_optimal_fuel_stops`,
`distance_from_start` is strictly increasing (each non-terminal iteration
strictly advances the position), and the loop terminates within one
iteration per candidate station: the fuel budget of
`candidate count + 1` iterations is never exhausted. -/
theorem c5_stops_strictly_increasing_and_terminates
    (L total_distance : ℚ) (stations_along_route : List FuelStation)
    (hL : 0 < L)
    (hfr : ∀ s ∈ stations_along_route, 0 ≤ s.station_fraction ∧ s.station_fraction ≤ 1) :
    (∀ stops acc,
      find_optimal_fuel_stops L total_distance stations_along_route = .ok stops acc →
      (stops.map FuelStop.distance_from_start).Chain' (· < ·)) ∧
    find_optimal_fuel_stops L total_distance stations_along_route ≠ .outOfFuel := by
  constructor
  · intro stops acc h
    have := find_optimal_fuel_stops_loop_ok_inv L total_distance stations_along_route hL hfr
      (stations_along_route.length + 1) 0 0 [] 0 stops acc (by norm_num) (le_refl 0)
      (by simp only [MILES_PER_DEGREE]; positivity) (by simp) (by simp) (by simp) (by simp) h
    exact this.1
  · exact find_optimal_fuel_stops_loop_terminates L total_distance stations_along_route hL hfr
      (stations_along_route.length + 1) 0 0 [] 0
      (Nat.lt_succ_of_le (List.countP_le_length _))

/-- Witness for `c5_stops_strictly_increasing_and_terminates` on the
concrete two-stop run. -/
theorem c5_witness :
    ((0 : ℚ) < 1000 / 69 ∧
      (∀ s ∈ demo_stations, 0 ≤ s.station_fraction ∧ s.station_fraction ≤ 1)) ∧
    ((∀ stops acc,
      find_optimal_fuel_stops (1000 / 69) 1000 demo_stations = .ok stops acc →
      (stops.map FuelStop.distance_from_start).Chain' (· < ·)) ∧
    find_optimal_fuel_stops (1000 / 69) 1000 demo_stations ≠ .outOfFuel) :=
  ⟨⟨by norm_num, by norm_num [demo_stations]⟩,
   c5_stops_strictly_increasing_and_terminates (1000 / 69) 1000 demo_stations
     (by norm_num) (by norm_num [demo_stations])⟩

/-- C6: every `FuelStop` returned by `find_optimal_fuel_stops` has
`distance_from_start` at most the route's total distance: a selected
station's distance is bounded by `distance_covered + 450`, and the loop
only selects while `total_distance - distance_covered ≥ 450`. -/
theorem c6_stops_within_total_distance
    (L total_distance : ℚ) (stations_along_route : List FuelStation)
    (stops : List FuelStop) (acc : ℚ)
    (hL : 0 < L)
    (hfr : ∀ s ∈ stations_along_route, 0 ≤ s.station_fraction ∧ s.station_fraction ≤ 1)
    (h : find_optimal_fuel_stops L total_distance stations_along_route = .ok stops acc) :
    ∀ st ∈ stops, st.distance_from_start ≤ total_distance := by
  have := find_optimal_fuel_stops_loop_ok_inv L total_distance stations_along_route hL hfr
    (stations_along_route.length + 1) 0 0 [] 0 stops acc (by norm_num) (le_refl 0)
    (by simp only [MILES_PER_DEGREE]; positivity) (by simp) (by simp) (by simp) (by simp) h
  exact this.2.1

/-- Witness for `c6_stops_within_total_distance` on the concrete two-stop
run. -/
theorem c6_witness :
    ((0 : ℚ) < 1000 / 69 ∧
      (∀ s ∈ demo_stations, 0 ≤ s.station_fraction ∧ s.station_fraction ≤ 1)) ∧
    ∀ st ∈ demo_stops, st.distance_from_start ≤ 1000 :=
  ⟨⟨by norm_num, by norm_num [demo_stations]⟩,
   c6_stops_within_total_distance (1000 / 69) 1000 demo_stations demo_stops 165
     (by norm_num) (by norm_num [demo_stations]) demo_run⟩

/-! ## C7 — no reachable station means a bare `InsufficientStations` -/

/-- C7: at any loop state where the trip is not finished (the remaining
distance is at least the safe range) and no candidate satisfies the
greedy step's reachability window, the planner terminates with the
`InsufficientStations` failure, which carries no stop list and no cost —
whatever stops and accumulated cost existed so far are discarded, so no
partial trip result reaches the caller (`views.get_optimal_route` turns
the raised `ValidationError` into a bare error response). -/
theorem c7_no_station_insufficient
    (L total_distance : ℚ) (stations_along_route : List FuelStation) (fuel : ℕ)
    (current_point_d distance_covered : ℚ) (stops : List FuelStop) (acc : ℚ)
    (h1 : distance_covered < total_distance)
    (h2 : ¬(total_distance - distance_covered < MAX_TRAVERSIBLE_RANGE))
    (h3 : find_next_best_fuel_station L total_distance current_point_d distance_covered
      (total_distance - distance_covered) stations_along_route = none) :
    find_optimal_fuel_stops_loop L total_distance stations_along_route (fuel + 1)
      current_point_d distance_covered stops acc = .insufficientStations := by
  simp only [find_optimal_fuel_stops_loop]
  rw [if_pos h1, if_neg h2, h3]

/-- Witness for `c7_no_station_insufficient`: an empty candidate list on
a 1000-mile route. -/
theorem c7_witness :
    ((0 : ℚ) < 1000 ∧ ¬((1000 : ℚ) - 0 < MAX_TRAVERSIBLE_RANGE) ∧
      find_next_best_fuel_station 1 1000 0 0 ((1000 : ℚ) - 0) [] = none) ∧
    find_optimal_fuel_stops_loop 1 1000 [] (0 + 1) 0 0 [] 0 = .insufficientStations :=
  ⟨⟨by norm_num,
    by norm_num [MAX_TRAVERSIBLE_RANGE, RANGE_IN_MILES, SAFETY_MARGIN],
    by norm_num [find_next_best_fuel_station]⟩,
   c7_no_station_insufficient 1 1000 [] 0 0 0 [] 0 (by norm_num)
     (by norm_num [MAX_TRAVERSIBLE_RANGE, RANGE_IN_MILES, SAFETY_MARGIN])
     (by norm_num [find_next_best_fuel_station])⟩

/-! ## `get_route` and the route cache (routing.py lines 29-42, 75-137)

The provider interaction of `OptimalFuelRouter.get_route` is embedded as
a function of the observed outcome of the `requests.get` call:

* `FetchOutcome.requestException` — any `requests.RequestException`: a
  transport failure or timeout, a non-success HTTP status raised by
  `response.raise_for_status()`, or a malformed JSON body
  (`response.json()` raises `requests.exceptions.JSONDecodeError`, a
  `RequestException` subclass).  These are caught by the `except` clause
  and `get_route` returns `False`.
* `FetchOutcome.body routes` — a decoded JSON body; the code then indexes
  `route_data["routes"][0]["sections"]` and decodes each section's
  flexpolyline.  An empty `routes` list (`IndexError`), a polyline on
  which `flexpolyline.decode` raises (`decode` returns `none` in the
  model), a section decoding to an empty coordinate list
  (`section_coords[0]` raises `IndexError`), and a total coordinate list
  too short for a `LineString` (GEOS requires at least two points) are
  **not** `RequestException`s: they escape `get_route` unhandled
  (`GetRouteResult.uncaughtException`).

The Django cache keyed by
`f"route_{origin[0]}_{origin[1]}_{destination[0]}_{destination[1]}"` is
modelled as a map from the coordinate pair (the f-string is injective on
float representations, which never contain an underscore); a `cache.get`
returning an entry models a hit within the 1-hour `CACHE_TIMEOUT`. -/

/-- The `RouteSegment` dataclass (routing.py lines 29-34). -/
structure RouteSegment where
  start_point : ℚ × ℚ
  end_point : ℚ × ℚ
  distance : ℚ
  polyline : String
deriving DecidableEq, Repr

/-- The `Route` dataclass (routing.py lines 37-41); `route_line` is the
list of linestring vertices (stored by the code as `(lng, lat)` points,
a detail irrelevant here). -/
structure Route where
  segments : List RouteSegment
  distance : ℚ
  route_line : List (ℚ × ℚ)
deriving DecidableEq, Repr

def RouteCache : Type := ((ℚ × ℚ) × (ℚ × ℚ)) → Option Route

/-- `cache.set(key, route, CACHE_TIMEOUT)`. -/
def cache_set (c : RouteCache) (k : (ℚ × ℚ) × (ℚ × ℚ)) (r : Route) : RouteCache :=
  fun q => if q = k then some r else c q

def empty_cache : RouteCache := fun _ => none

/-- One section of the provider's JSON response: an encoded polyline and
a summary length in meters. -/
structure ProviderSection where
  polyline : String
  length_meters : ℚ
deriving DecidableEq, Repr

/-- One route of the provider's JSON response. -/
structure ProviderRoute where
  sections : List ProviderSection
deriving DecidableEq, Repr

/-- The observable outcome of the `requests.get` call, see the section
header. -/
inductive FetchOutcome where
  | requestException
  | body (routes : List ProviderRoute)
deriving DecidableEq, Repr

/-- Result of `get_route`: `success route` models `return True` with the
router's `route_segments`/`total_distance`/`route_line` set from `route`;
`failure` models `return False`; `uncaughtException` models a non-
`RequestException` exception escaping the method. -/
inductive GetRouteResult where
  | success (route : Route)
  | failure
  | uncaughtException
deriving DecidableEq, Repr

/-- The section-processing `for` loop of `get_route` (routing.py lines
105-122): decode each polyline (`none` models `flexpolyline.decode`
raising, an empty coordinate list makes `section_coords[0]` raise),
build the `RouteSegment`s, concatenate the coordinates and sum the
section distances. -/
def build_sections (decode : String → Option (List (ℚ × ℚ))) :
    List ProviderSection → Option (List RouteSegment × List (ℚ × ℚ) × ℚ)
  | [] => some ([], [], 0)
  | sec :: rest =>
    match decode sec.polyline with
    | none => none
    | some [] => none
    | some (c0 :: cs) =>
      match build_sections decode rest with
      | none => none
      | some (segs, coords, dist) =>
        let distance := sec.length_meters / METERS_PER_MILE
        some (⟨c0, (c0 :: cs).getLast (List.cons_ne_nil c0 cs), distance, sec.polyline⟩ :: segs,
          (c0 :: cs) ++ coords, distance + dist)

/-- `OptimalFuelRouter.get_route` (routing.py lines 80-137).  On the
failure paths before `cache.set` — the caught `RequestException` and the
uncaught indexing/decoding errors — the cache is returned unchanged. -/
def get_route (decode : String → Option (List (ℚ × ℚ))) (cache : RouteCache)
    (origin destination : ℚ × ℚ) (outcome : FetchOutcome) :
    GetRouteResult × RouteCache :=
  match cache (origin, destination) with
  | some cached_route => (.success cached_route, cache)
  | none =>
    match outcome with
    | .requestException => (.failure, cache)
    | .body routes =>
      match routes with
      | [] => (.uncaughtException, cache)
      | r0 :: _ =>
        match build_sections decode r0.sections with
        | none => (.uncaughtException, cache)
        | some (segs, coords, total) =>
          if coords.length < 2 then (.uncaughtException, cache)
          else
            (.success ⟨segs, total, coords⟩,
             cache_set cache (origin, destination) ⟨segs, total, coords⟩)

/-! ## C8 — failure handling of the provider call -/

/-- C8 (claim as stated is refuted here): an empty `routes` array in the
provider response does *not* yield the graceful `RouteUnavailable`
(`return False`) outcome — `route_data["routes"][0]` raises an
`IndexError`, which the `except requests.exceptions.RequestException`
clause does not catch, so the error escapes `get_route` unhandled. -/
theorem c8_counterexample :
    (get_route (fun _ => none) empty_cache (1, 2) (3, 4) (.body [])).1 =
      GetRouteResult.uncaughtException ∧
    GetRouteResult.uncaughtException ≠ GetRouteResult.failure := by
  exact ⟨rfl, by simp⟩

/-- C8 (amended): on a cache miss, every `RequestException`-class
failure of the provider call — transport/timeout errors, a non-success
HTTP status, a malformed JSON body — makes `get_route` return the
`RouteUnavailable` outcome (`False`) with the route cache unmodified;
decode failures of a section polyline and empty results instead escape
as unhandled exceptions, but on *every* non-success path (graceful or
not) the cache is left unmodified — no partial or poisoned entry is
stored. -/
theorem c8_failure_handling (decode : String → Option (List (ℚ × ℚ)))
    (cache : RouteCache) (origin destination : ℚ × ℚ) (outcome : FetchOutcome)
    (hmiss : cache (origin, destination) = none) :
    (outcome = .requestException →
      get_route decode cache origin destination outcome = (.failure, cache)) ∧
    (∀ res c, get_route decode cache origin destination outcome = (res, c) →
      (res = .failure ∨ res = .uncaughtException) → c = cache) := by
  constructor
  · rintro rfl
    simp only [get_route, hmiss]
  · intro res c h hres
    cases outcome with
    | requestException => simp only [get_route, hmiss] at h; cases h; rfl
    | body routes =>
      cases routes with
      | nil => simp only [get_route, hmiss] at h; cases h; rfl
      | cons r0 rest =>
        simp only [get_route, hmiss] at h
        cases hb : build_sections decode r0.sections with
        | none => rw [hb] at h; cases h; rfl
        | some v =>
          obtain ⟨segs, coords, total⟩ := v
          rw [hb] at h
          dsimp only at h
          by_cases hlen : coords.length < 2
          · rw [if_pos hlen] at h; cases h; rfl
          · rw [if_neg hlen] at h
            cases h
            rcases hres with hres | hres <;> cases hres

/-- Witness for `c8_failure_handling`: a timed-out provider call on an
empty cache. -/
theorem c8_witness :
    (empty_cache (((1 : ℚ), (2 : ℚ)), ((3 : ℚ), (4 : ℚ))) = none) ∧
    ((FetchOutcome.requestException = FetchOutcome.requestException →
      get_route (fun _ => none) empty_cache (1, 2) (3, 4) .requestException =
        (.failure, empty_cache)) ∧
    (∀ res c,
      get_route (fun _ => none) empty_cache (1, 2) (3, 4) .requestException = (res, c) →
      (res = .failure ∨ res = .uncaughtException) → c = empty_cache)) :=
  ⟨rfl, c8_failure_handling (fun _ => none) empty_cache (1, 2) (3, 4) .requestException rfl⟩

/-! ## C9 — cache hits -/

/-- C9: while a `Route` is cached for an origin/destination pair (i.e.
within the 1-hour TTL, during which `cache.get` returns the entry),
every `get_route` call with exactly the same coordinate pair returns the
cached route data unchanged — for *any* provider outcome and decoder,
i.e. without consulting the provider at all — and leaves the cache as it
is; and the cache key is the exact coordinate pair: an entry stored for
one pair is invisible at every other key, so requests differing in any
coordinate are cache misses. -/
theorem c9_cache_hit_behavior (cache : RouteCache) (origin destination : ℚ × ℚ)
    (r : Route) (hhit : cache (origin, destination) = some r) :
    (∀ decode outcome,
      get_route decode cache origin destination outcome = (.success r, cache)) ∧
    (∀ k, k ≠ (origin, destination) → ∀ c : RouteCache,
      cache_set c (origin, destination) r k = c k) := by
  constructor
  · intro decode outcome
    simp only [get_route, hhit]
  · intro k hk c
    simp [cache_set, hk]

/-- A concrete cached route for the C9 witness. -/
def demo_route : Route := ⟨[⟨(1, 2), (3, 4), 5, "pl"⟩], 5, [(2, 1), (4, 3)]⟩

/-- Witness for `c9_cache_hit_behavior` on a one-entry cache. -/
theorem c9_witness :
    (cache_set empty_cache (((1 : ℚ), (2 : ℚ)), ((3 : ℚ), (4 : ℚ))) demo_route
        (((1 : ℚ), (2 : ℚ)), ((3 : ℚ), (4 : ℚ))) = some demo_route) ∧
    ((∀ decode outcome,
      get_route decode (cache_set empty_cache (((1 : ℚ), (2 : ℚ)), ((3 : ℚ), (4 : ℚ))) demo_route)
          (1, 2) (3, 4) outcome =
        (.success demo_route,
         cache_set empty_cache (((1 : ℚ), (2 : ℚ)), ((3 : ℚ), (4 : ℚ))) demo_route)) ∧
    (∀ k, k ≠ (((1 : ℚ), (2 : ℚ)), ((3 : ℚ), (4 : ℚ))) → ∀ c : RouteCache,
      cache_set c (((1 : ℚ), (2 : ℚ)), ((3 : ℚ), (4 : ℚ))) demo_route k = c k)) :=
  ⟨by simp [cache_set],
   c9_cache_hit_behavior _ (1, 2) (3, 4) demo_route (by simp [cache_set])⟩
